import Mathlib

/-!
# Verification of the `ai_company_workflow` agent-directory client and orchestrator

Shallow embedding of `ai_company_workflow/a2a_client.py` (class `A2AToolClient`)
and `ai_company_workflow/simple_orchestrator.py` (class `SimpleOrchestrator`).

Modelling conventions:
* Python `str` values that are inspected character-by-character (sliced,
  substring-tested) are modelled as `List Char` (`PyStr`); URL strings used
  only as dictionary keys are modelled as Lean `String`.
* JSON values are the inductive `Json` below; a Python `dict` is an
  insertion-ordered association list with unique keys, which is exactly how
  the client's `_agent_info_cache` behaves.
* Network effects are an explicit environment: a function from URL to the
  outcome of the HTTP interaction.  Exceptions that the Python code does not
  catch surface as the `Except.error` constructor of the result.
-/

set_option autoImplicit false

namespace A2AWorkflow

/-- A JSON value, as produced by `json.loads` / `model_dump(mode='json')`.
Objects are insertion-ordered key/value lists (Python `dict`). -/
inductive Json where
  | null : Json
  | bool : Bool → Json
  | num : Int → Json
  | str : String → Json
  | arr : List Json → Json
  | obj : List (String × Json) → Json

/-- First value bound to `k` in an association list (Python `d[k]` /
`k in d` on a `dict`, whose keys are unique). -/
def assocGet : List (String × Json) → String → Option Json
  | [], _ => none
  | (k', v) :: rest, k => if k' = k then some v else assocGet rest k

/-- The agent-info cache of `A2AToolClient`: a Python `dict` from normalized
URL to `None` (registered, metadata unfetched) or the metadata document. -/
abbrev Cache := List (String × Option Json)

/-- `cache[k]` as a total lookup: `none` means the key is absent,
`some v` means the key is present and bound to `v`. -/
def cacheGet : Cache → String → Option (Option Json)
  | [], _ => none
  | (k', v) :: rest, k => if k' = k then some v else cacheGet rest k

/-- `cache[k] = v` on a Python `dict`: updates the existing binding in place
(preserving insertion order) or appends a new one at the end. -/
def cacheSet : Cache → String → Option Json → Cache
  | [], k, v => [(k, v)]
  | (k', v') :: rest, k, v =>
    if k' = k then (k, v) :: rest else (k', v') :: cacheSet rest k v

/-- `agent_url.rstrip('/')`: remove every trailing `'/'`. -/
def rstripSlash (s : String) : String :=
  String.mk ((s.data.reverse.dropWhile (fun c => c = '/')).reverse)

/-- `A2AToolClient.add_remote_agent` (a2a_client.py lines 20-25):
normalize the URL; if it is not yet a key of the cache, bind it to `None`. -/
def add_remote_agent (cache : Cache) (agent_url : String) : Cache :=
  let normalized_url := rstripSlash agent_url
  match cacheGet cache normalized_url with
  | some _ => cache
  | none => cacheSet cache normalized_url none

/-- Outcome of `requests.get(f"{url}/.well-known/agent.json")` followed by
`raise_for_status()` and `.json()` in `list_remote_agents`.  With the
`requests` library, `raise_for_status()` raises `requests.HTTPError`, a
subclass of `requests.RequestException`, so a bad status lands in
`requestError`. -/
inductive ReqFetch where
  | ok : Json → ReqFetch
  | requestError : String → ReqFetch
  | decodeError : String → ReqFetch

/-- Does the `requests`-based metadata fetch succeed? -/
def ReqFetch.isOk : ReqFetch → Bool
  | .ok _ => true
  | _ => false

/-- `A2AToolClient.list_remote_agents` (a2a_client.py lines 27-50), as a fold
over the cache entries in insertion order.  A cached document is returned
as-is; an unfetched entry triggers a fetch whose success is cached and
appended and whose failure (either `except` arm) is logged and skipped.
Returns the collected list and the updated cache.  The early
`if not self._agent_info_cache: return []` coincides with the fold on `[]`. -/
def list_remote_agents (fetch : String → ReqFetch) : Cache → List Json × Cache
  | [] => ([], [])
  | (url, cached_info) :: rest =>
    match cached_info with
    | some info =>
      let r := list_remote_agents fetch rest
      (info :: r.1, (url, some info) :: r.2)
    | none =>
      match fetch url with
      | .ok agent_data =>
        let r := list_remote_agents fetch rest
        (agent_data :: r.1, (url, some agent_data) :: r.2)
      | _ =>
        let r := list_remote_agents fetch rest
        (r.1, (url, none) :: r.2)

/-! ## Python strings and `json.dumps` -/

/-- Python strings inspected character-by-character (sliced, substring-tested):
a list of code points, so that `s[:n]` is `List.take n`. -/
abbrev PyStr := List Char

/-- The characters of a Lean string literal, as a Python string value. -/
def pys (s : String) : PyStr := s.data

/-- Python's substring test `pat in s` on strings. -/
def occursIn (pat : PyStr) : PyStr → Bool
  | [] => pat.isEmpty
  | c :: rest => pat.isPrefixOf (c :: rest) || occursIn pat rest

/-- `json.dumps` escaping of one character inside a quoted string (the common
escapes; exotic control and non-ASCII characters are emitted verbatim rather
than as numeric escapes, which no claim depends on). -/
def escapeJsonChar (c : Char) : String :=
  if c = '"' then "\\\""
  else if c = '\\' then "\\\\"
  else if c = '\n' then "\\n"
  else if c = '\t' then "\\t"
  else if c = '\r' then "\\r"
  else String.singleton c

/-- `json.dumps` quoting of a string value. -/
def quoteJsonString (s : String) : String :=
  "\"" ++ String.join (s.data.map escapeJsonChar) ++ "\""

/-- Two-space indentation prefix at nesting depth `n` (`json.dumps(..., indent=2)`). -/
def jsonPad (n : Nat) : String :=
  String.mk (List.replicate (2 * n) ' ')

mutual

/-- `json.dumps(v, indent=2)` at nesting depth `ind`. -/
def dumpJson (ind : Nat) : Json → String
  | .null => "null"
  | .bool true => "true"
  | .bool false => "false"
  | .num n => toString n
  | .str s => quoteJsonString s
  | .arr [] => "[]"
  | .arr (x :: xs) => "[\n" ++ dumpArr ind (x :: xs) ++ "\n" ++ jsonPad ind ++ "]"
  | .obj [] => "\x7b\x7d"
  | .obj (kv :: kvs) => "\x7b\n" ++ dumpObj ind (kv :: kvs) ++ "\n" ++ jsonPad ind ++ "\x7d"

/-- The comma-and-newline separated items of a JSON array. -/
def dumpArr (ind : Nat) : List Json → String
  | [] => ""
  | [x] => jsonPad (ind + 1) ++ dumpJson (ind + 1) x
  | x :: y :: xs =>
    jsonPad (ind + 1) ++ dumpJson (ind + 1) x ++ ",\n" ++ dumpArr ind (y :: xs)

/-- The comma-and-newline separated entries of a JSON object. -/
def dumpObj (ind : Nat) : List (String × Json) → String
  | [] => ""
  | [(k, v)] => jsonPad (ind + 1) ++ quoteJsonString k ++ ": " ++ dumpJson (ind + 1) v
  | (k, v) :: kv :: kvs =>
    jsonPad (ind + 1) ++ quoteJsonString k ++ ": " ++ dumpJson (ind + 1) v ++ ",\n"
      ++ dumpObj ind (kv :: kvs)

end

/-- `json.dumps(response_dict, indent=2)` (a2a_client.py line 130). -/
def json_dumps (v : Json) : String := dumpJson 0 v

/-! ## Response-text extraction (a2a_client.py lines 118-130) -/

/-- Python `key in x` immediately followed by `x[key]`, as the source does at
each level of the envelope walk: `ok v` when `x` is a dict containing `key`;
`skip` when the membership test is False; `raised` when the membership test or
the subscript raises `TypeError` (membership in a list is True only for a
string element equal to `key`, and a string subscript on a list or string then
raises; membership in `None`, a bool or a number raises immediately). -/
inductive KeyProbe where
  | ok : Json → KeyProbe
  | skip : KeyProbe
  | raised : KeyProbe

/-- See `KeyProbe`. -/
def keyProbe (x : Json) (key : String) : KeyProbe :=
  match x with
  | .obj kvs =>
    match assocGet kvs key with
    | some v => .ok v
    | none => .skip
  | .arr xs =>
    if xs.any (fun j => match j with | .str s => s = key | _ => false)
    then .raised else .skip
  | .str s => if occursIn (pys key) (pys s) then .raised else .skip
  | _ => .raised

/-- Result of the envelope walk: the value of the first `'text'` field found,
or `noText` (fall through to `json.dumps`), or `raised` (an exception caught
by the enclosing `except Exception`, which returns `str(response)`). -/
inductive Extract where
  | found : Json → Extract
  | noText : Extract
  | raised : Extract

/-- The inner loop `for part_item in artifact['parts']` (lines 125-127):
return the first `part_item['text']`. -/
def scanParts : List Json → Extract
  | [] => .noText
  | part_item :: rest =>
    match keyProbe part_item "text" with
    | .ok v => .found v
    | .skip => scanParts rest
    | .raised => .raised

/-- The outer loop `for artifact in artifacts` (lines 123-127).  A non-list
`artifact['parts']` is modelled conservatively: iterating a string yields its
1-character substrings, none of which can contain `"text"`, so it scans to
nothing; iterating any other non-list is modelled as the raised path. -/
def scanArtifacts : List Json → Extract
  | [] => .noText
  | artifact :: rest =>
    match keyProbe artifact "parts" with
    | .ok (.arr parts) =>
      match scanParts parts with
      | .noText => scanArtifacts rest
      | r => r
    | .ok (.str _) => scanArtifacts rest
    | .ok _ => .raised
    | .skip => scanArtifacts rest
    | .raised => .raised

/-- Lines 121-130: `if 'result' in response_dict and 'artifacts' in
response_dict['result']:` then the nested loops, else fall through to
`json.dumps`.  Iterating a string-valued `artifacts` yields 1-character
substrings none of which can contain `"parts"`, hence `noText`. -/
def extract_response_text (response_dict : Json) : Extract :=
  match keyProbe response_dict "result" with
  | .ok result =>
    match keyProbe result "artifacts" with
    | .ok (.arr artifacts) => scanArtifacts artifacts
    | .ok (.str _) => .noText
    | .ok _ => .raised
    | .skip => .noText
    | .raised => .raised
  | .skip => .noText
  | .raised => .raised

/-! ## `create_task` (a2a_client.py lines 53-135) -/

/-- Outcome of `await httpx_client.get(f"{normalized_url}/.well-known/agent.json")`
followed by `raise_for_status()` and `.json()` in `create_task`.  With `httpx`,
`raise_for_status()` raises `httpx.HTTPStatusError`, which is NOT a subclass
of `httpx.RequestError` (both derive from `httpx.HTTPError`), so a non-success
status gets its own constructor. -/
inductive HttpxFetch where
  | ok : Json → HttpxFetch
  | requestError : String → HttpxFetch
  | statusError : Nat → String → HttpxFetch
  | decodeError : String → HttpxFetch

/-- Outcome of `await client.send_message(request)`: the response (identified
with its `model_dump(mode='json', exclude_none=True)` value) or an
`httpx.RequestError`. -/
inductive SendOutcome where
  | ok : Json → SendOutcome
  | requestError : String → SendOutcome

/-- An exception escaping `create_task` uncaught. -/
inductive PyExn where
  | httpStatusError : Nat → String → PyExn

/-- One network interaction performed by `create_task`, in order. -/
inductive Event where
  | fetchCard : String → Event
  | sendMessage : Json → String → Event

/-- The ambient network and SDK behaviour `create_task` and
`list_remote_agents` run against. -/
structure NetEnv where
  httpxFetch : String → HttpxFetch
  reqFetch : String → ReqFetch
  mkAgentCard : Json → Except String Unit
  send : Json → String → SendOutcome
  pyRepr : Json → String

/-- Lines 82-135 of `create_task`, from `AgentCard(**agent_card_data)` on:
validate the card, send the message, extract the text.  `pyRepr` stands for
Python's `str()` of a non-string object (the `f"...{agent_card_data}"`
interpolation, a non-string `part_item['text']` returned as-is in violation
of the `-> str` annotation, and the `except Exception` arm's
`str(response)`). -/
def create_task_send (env : NetEnv) (normalized_url : String) (agent_card_data : Json)
    (message : String) : Except PyExn String × List Event :=
  match env.mkAgentCard agent_card_data with
  | .error e =>
    (.ok ("Error creating AgentCard from fetched data for " ++ normalized_url ++ ": "
      ++ e ++ ". Data: " ++ env.pyRepr agent_card_data), [])
  | .ok _ =>
    match env.send agent_card_data message with
    | .requestError e =>
      (.ok ("Error sending message to " ++ normalized_url ++ ": " ++ e),
        [.sendMessage agent_card_data message])
    | .ok response_dict =>
      match extract_response_text response_dict with
      | .found (.str t) => (.ok t, [.sendMessage agent_card_data message])
      | .found v => (.ok (env.pyRepr v), [.sendMessage agent_card_data message])
      | .noText => (.ok (json_dumps response_dict), [.sendMessage agent_card_data message])
      | .raised => (.ok (env.pyRepr response_dict), [.sendMessage agent_card_data message])

/-- `A2AToolClient.create_task` (a2a_client.py lines 53-135).  Returns the
result (`Except.error` = an exception escaped uncaught), the updated cache,
and the ordered list of network interactions performed. -/
def create_task (env : NetEnv) (cache : Cache) (agent_url message : String) :
    Except PyExn String × Cache × List Event :=
  let normalized_url := rstripSlash agent_url
  match cacheGet cache normalized_url with
  | some (some agent_card_data) =>
    let r := create_task_send env normalized_url agent_card_data message
    (r.1, cache, r.2)
  | _ =>
    match env.httpxFetch normalized_url with
    | .requestError e =>
      (.ok ("Error fetching agent card from " ++ normalized_url ++ ": " ++ e),
        cache, [.fetchCard normalized_url])
    | .statusError code e =>
      (.error (.httpStatusError code e), cache, [.fetchCard normalized_url])
    | .decodeError e =>
      (.ok ("Error parsing agent card JSON from " ++ normalized_url ++ ": " ++ e),
        cache, [.fetchCard normalized_url])
    | .ok agent_card_data =>
      let cache' := cacheSet cache normalized_url (some agent_card_data)
      let r := create_task_send env normalized_url agent_card_data message
      (r.1, cache', .fetchCard normalized_url :: r.2)

/-! ## `SimpleOrchestrator` (simple_orchestrator.py) -/

/-- What `await self.a2a_client.create_task(agent_url, message)` does for one
call, seen from the orchestrator: return a string, or raise (`raise` carries
`str(e)`). -/
inductive AgentReply where
  | ret : PyStr → AgentReply
  | raise : PyStr → AgentReply

/-- The dict `send_message_to_agent` returns:
`{"success": True, "content": result}` or
`{"error": f"Failed to communicate with agent: {str(e)}"}`. -/
inductive AgentResponse where
  | success : PyStr → AgentResponse
  | error : PyStr → AgentResponse

/-- The behaviour of the three remote endpoints during one pipeline run:
the outcome of `create_task` for a given destination URL and message. -/
structure OrchEnv where
  reply : String → PyStr → AgentReply

/-- `SimpleOrchestrator.send_message_to_agent` (lines 25-31). -/
def send_message_to_agent (env : OrchEnv) (agent_url : String) (message : PyStr) :
    AgentResponse :=
  match env.reply agent_url message with
  | .ret result => .success result
  | .raise e => .error (pys "Failed to communicate with agent: " ++ e)

/-- `SimpleOrchestrator.extract_text_from_response` (lines 33-44).  The dicts
produced by `send_message_to_agent` always carry exactly one of the two keys,
so the `"No content found in response"` branch and the `except` arm are
unreachable and have no counterpart in the model. -/
def extract_text_from_response : AgentResponse → PyStr
  | .error e => pys "Error: " ++ e
  | .success content => content

/-- `self.agents["research_analyst"]`. -/
def research_analyst_url : String := "http://localhost:10031"

/-- `self.agents["data_processor"]`. -/
def data_processor_url : String := "http://localhost:10032"

/-- `self.agents["report_writer"]`. -/
def report_writer_url : String := "http://localhost:10033"

/-- The stage-failure marker tested by `if "Error:" in ...`. -/
def errorMarker : PyStr := pys "Error:"

/-- Line 51: the research-stage instruction. -/
def research_message (user_request : PyStr) : PyStr :=
  pys "Research the following topic thoroughly: " ++ user_request

/-- Line 66: the processing-stage instruction; `research_content[:2000]` with
the literal `"..."` appended unconditionally by the f-string. -/
def data_message (research_content : PyStr) : PyStr :=
  pys "Analyze and process this research data: " ++ research_content.take 2000 ++ pys "..."

/-- Lines 81-89: the report-stage instruction; both 1500-character prefixes,
each followed by the literal `"..."` from the f-string. -/
def report_message (research_content data_content : PyStr) : PyStr :=
  pys "Create a comprehensive report based on the following information:\n\nRESEARCH FINDINGS:\n"
    ++ research_content.take 1500 ++ pys "...\n\nDATA ANALYSIS:\n"
    ++ data_content.take 1500
    ++ pys "...\n\nPlease create a well-structured report that combines both the research findings and data analysis."

/-- Lines 104-113: the fixed summary wrapper around the full report text. -/
def final_result_template (report_content : PyStr) : PyStr :=
  pys "# Workflow Orchestration Complete\n\n## Summary\nSuccessfully coordinated between Research Analyst, Data Processor, and Report Writer agents using A2A protocol.\n\n## Final Report\n"
    ++ report_content
    ++ pys "\n\n---\n*This report was generated through coordinated work between specialized AI agents using the A2A protocol.*"

/-- `SimpleOrchestrator.orchestrate_workflow` (lines 46-118).  Returns the
final string and the ordered trace of `(url, message)` calls issued through
`send_message_to_agent`.  The enclosing `try/except` (line 117) is
unreachable in the model because `send_message_to_agent` already converts
every `create_task` outcome into a dict. -/
def orchestrate_workflow (env : OrchEnv) (user_request : PyStr) :
    PyStr × List (String × PyStr) :=
  let rmsg := research_message user_request
  let research_content :=
    extract_text_from_response (send_message_to_agent env research_analyst_url rmsg)
  let trace1 := [(research_analyst_url, rmsg)]
  if occursIn errorMarker research_content then
    (pys "❌ Research failed: " ++ research_content, trace1)
  else
    let dmsg := data_message research_content
    let data_content :=
      extract_text_from_response (send_message_to_agent env data_processor_url dmsg)
    let trace2 := trace1 ++ [(data_processor_url, dmsg)]
    if occursIn errorMarker data_content then
      (pys "❌ Data processing failed: " ++ data_content, trace2)
    else
      let pmsg := report_message research_content data_content
      let report_content :=
        extract_text_from_response (send_message_to_agent env report_writer_url pmsg)
      let trace3 := trace2 ++ [(report_writer_url, pmsg)]
      if occursIn errorMarker report_content then
        (pys "❌ Report generation failed: " ++ report_content, trace3)
      else
        (final_result_template report_content, trace3)

/-! ## Abstract client operations and concrete test environments -/

/-- One client operation together with the network behaviour it runs
against (the network may differ from call to call). -/
inductive Op where
  | register : String → Op
  | listAgents : NetEnv → Op
  | sendTask : NetEnv → String → String → Op

/-- The cache after running one operation. -/
def applyOp (cache : Cache) : Op → Cache
  | .register u => add_remote_agent cache u
  | .listAgents env => (list_remote_agents env.reqFetch cache).2
  | .sendTask env u m => (create_task env cache u m).2.1

/-- A network in which every metadata fetch answers with an HTTP 404, so that
`raise_for_status()` raises `httpx.HTTPStatusError`. -/
def env404 : NetEnv where
  httpxFetch := fun _ => .statusError 404 "Client error 404 Not Found"
  reqFetch := fun _ => .requestError "unreachable"
  mkAgentCard := fun _ => .ok ()
  send := fun _ _ => .requestError "unreachable"
  pyRepr := fun _ => ""

/-- A network in which every connection attempt fails with an
`httpx.RequestError` (e.g. connection refused). -/
def envConnRefused : NetEnv where
  httpxFetch := fun _ => .requestError "Connection refused"
  reqFetch := fun _ => .requestError "Connection refused"
  mkAgentCard := fun _ => .ok ()
  send := fun _ _ => .requestError "Connection refused"
  pyRepr := fun _ => ""

/-- The fetch behaviour for the C6 witness: of three endpoints, exactly the
second is unreachable. -/
def fetchOneDown : String → ReqFetch := fun url =>
  if url = "http://x:10032" then .requestError "Connection refused"
  else .ok (Json.obj [("name", Json.str url)])

/-- A small agent metadata document. -/
def cardJson : Json := Json.obj [("name", Json.str "Research Agent")]

/-! ## A family of well-formed task response envelopes

Used to compare the code's envelope walk with the spec's description of it.
An artifact is `none` (no `"parts"` field) or a list of parts; a part is
`none` (no `"text"` field) or the string bound to `"text"`. -/

/-- A response part: `some t` carries a `"text"` field holding `t` (next to a
`"kind"` marker, as the SDK emits); `none` has no `"text"` field. -/
def mkPart : Option String → Json
  | some t => Json.obj [("kind", Json.str "text"), ("text", Json.str t)]
  | none => Json.obj [("kind", Json.str "data")]

/-- An artifact: `some parts` has a `"parts"` array; `none` has no `"parts"`
field. -/
def mkArtifact : Option (List (Option String)) → Json
  | some parts => Json.obj [("artifactId", Json.str "a"), ("parts", Json.arr (parts.map mkPart))]
  | none => Json.obj [("artifactId", Json.str "a")]

/-- A well-formed task response envelope holding the given artifacts under
`result.artifacts`. -/
def mkEnvelope (arts : List (Option (List (Option String)))) : Json :=
  Json.obj [("id", Json.str "1"),
    ("result", Json.obj [("artifacts", Json.arr (arts.map mkArtifact)),
      ("kind", Json.str "task")])]

/-- The spec's description of the extraction, written from its words alone:
"the first part containing a `text` field found by scanning the
`result.artifacts` array in order and each artifact's parts list in order" —
that is, the head of the concatenation of all text fields in scan order. -/
def specFirstText (arts : List (Option (List (Option String)))) : Option String :=
  (arts.map (fun a => (a.getD []).filterMap id)).flatten.head?

/-- A network whose send replies with an envelope whose second artifact's
second part carries the text `"hi"`. -/
def envTextReply : NetEnv where
  httpxFetch := fun _ => .ok cardJson
  reqFetch := fun _ => .ok cardJson
  mkAgentCard := fun _ => .ok ()
  send := fun _ _ => .ok (mkEnvelope [none, some [none, some "hi"]])
  pyRepr := fun _ => ""

/-- A network whose send replies with an envelope carrying no artifacts at
all, hence no text field anywhere. -/
def envEmptyReply : NetEnv where
  httpxFetch := fun _ => .ok cardJson
  reqFetch := fun _ => .ok cardJson
  mkAgentCard := fun _ => .ok ()
  send := fun _ _ => .ok (mkEnvelope [])
  pyRepr := fun _ => ""

/-! ## Concrete pipeline environments -/

/-- Research, processing and report endpoints answering the literal strings
`"R"`, `"P"` and `"F"`. -/
def envRPF : OrchEnv :=
  ⟨fun url _ =>
    if url = research_analyst_url then .ret (pys "R")
    else if url = data_processor_url then .ret (pys "P")
    else .ret (pys "F")⟩

/-- A pipeline in which the processing endpoint answers an error-marked
string and every other endpoint answers `"ok"`. -/
def envProcFail : OrchEnv :=
  ⟨fun url _ =>
    if url = data_processor_url then .ret (pys "Error: processor crashed")
    else .ret (pys "ok")⟩

/-- A pipeline whose research endpoint answers exactly 2001 characters. -/
def envLongResearch : OrchEnv :=
  ⟨fun url _ =>
    if url = research_analyst_url then .ret (List.replicate 2001 'a')
    else .ret (pys "ok")⟩

/-- A pipeline whose research endpoint answers a 13-character string, far
under every truncation cutoff. -/
def envShortResearch : OrchEnv :=
  ⟨fun url _ =>
    if url = research_analyst_url then .ret (pys "short finding")
    else .ret (pys "ok")⟩

/-! ## Cache lemmas -/

theorem cacheGet_cacheSet_self (c : Cache) (k : String) (v : Option Json) :
    cacheGet (cacheSet c k v) k = some v := by
  induction c with
  | nil => simp [cacheSet, cacheGet]
  | cons p rest ih =>
    obtain ⟨k', v'⟩ := p
    by_cases h : k' = k <;> simp [cacheSet, cacheGet, h, ih]

theorem cacheGet_cacheSet_ne (c : Cache) (k k' : String) (v : Option Json)
    (h : k ≠ k') : cacheGet (cacheSet c k v) k' = cacheGet c k' := by
  induction c with
  | nil => simp [cacheSet, cacheGet, h]
  | cons p rest ih =>
    obtain ⟨k₀, v₀⟩ := p
    by_cases hk : k₀ = k
    · subst hk
      simp [cacheSet, cacheGet, h]
    · simp [cacheSet, cacheGet, hk, ih]

/-- Stripping trailing slashes absorbs one appended slash. -/
theorem rstripSlash_append_slash (u : String) :
    rstripSlash (u ++ "/") = rstripSlash u := by
  have hdata : (u ++ "/").data = u.data ++ ['/'] := rfl
  simp [rstripSlash, hdata, List.dropWhile]

/-- After `add_remote_agent`, the normalized URL is a key of the cache. -/
theorem cacheGet_add_remote_agent_self (c : Cache) (u : String) :
    ∃ j, cacheGet (add_remote_agent c u) (rstripSlash u) = some j := by
  unfold add_remote_agent
  rcases h : cacheGet c (rstripSlash u) with _ | j
  · exact ⟨none, by simp [h, cacheGet_cacheSet_self]⟩
  · exact ⟨j, by simp [h]⟩

/-! ## Claim C1 -/

/-- Claim C1: the claim states that `create_task` returns a human-readable
error string on every metadata-fetch failure, including a non-success HTTP
status, and never propagates an exception.  The code violates this: the
`except` clauses at a2a_client.py lines 76-79 catch `httpx.RequestError` and
`json.JSONDecodeError`, but `raise_for_status()` (line 73) raises
`httpx.HTTPStatusError`, which is a sibling of `httpx.RequestError` under
`httpx.HTTPError` and is caught by neither clause, so it escapes `create_task`
uncaught.  A plain network failure, by contrast, does come back as an error
string, which shows the escape is a slip rather than a design choice. -/
theorem C1_http_status_error_escapes :
    (create_task env404 [] "http://x:10031" "hello").1
        = .error (.httpStatusError 404 "Client error 404 Not Found")
      ∧ (create_task envConnRefused [] "http://x:10031" "hello").1
        = .ok "Error fetching agent card from http://x:10031: Connection refused" :=
  ⟨rfl, rfl⟩

/-! ## Claim C5 -/

/-- Claim C5: `add_remote_agent` is idempotent under trailing-slash
normalization.  Re-registering a URL whose normalized form is already a key
leaves the cache (including any cached metadata) untouched; registering a URL
and then its trailing-slash variant tracks exactly one entry, keyed by the
normalized URL and with metadata unpopulated. -/
theorem C5_register_idempotent (c : Cache) (u : String) :
    (∀ j : Option Json, cacheGet c (rstripSlash u) = some j → add_remote_agent c u = c)
    ∧ add_remote_agent (add_remote_agent c u) u = add_remote_agent c u
    ∧ add_remote_agent (add_remote_agent c u) (u ++ "/") = add_remote_agent c u
    ∧ add_remote_agent (add_remote_agent [] u) (u ++ "/")
        = [(rstripSlash u, none)] := by
  have noop : ∀ (c' : Cache) (u' : String),
      (∃ j, cacheGet c' (rstripSlash u') = some j) → add_remote_agent c' u' = c' := by
    intro c' u' ⟨j, hj⟩
    unfold add_remote_agent
    simp [hj]
  refine ⟨fun j hj => noop c u ⟨j, hj⟩, ?_, ?_, ?_⟩
  · exact noop _ u (cacheGet_add_remote_agent_self c u)
  · refine noop _ (u ++ "/") ?_
    rw [rstripSlash_append_slash]
    exact cacheGet_add_remote_agent_self c u
  · have h1 : add_remote_agent ([] : Cache) u = [(rstripSlash u, none)] := by
      unfold add_remote_agent
      simp [cacheGet, cacheSet]
    rw [h1]
    refine noop _ (u ++ "/") ?_
    rw [rstripSlash_append_slash]
    exact ⟨none, by simp [cacheGet]⟩

/-- Witness for C5 at a concrete URL pair differing only in the trailing
slash, with metadata already cached in the first conjunct's instance. -/
theorem C5_register_idempotent_witness :
    add_remote_agent [("http://x:10031", some (Json.str "meta"))] "http://x:10031/"
        = [("http://x:10031", some (Json.str "meta"))]
      ∧ add_remote_agent (add_remote_agent [] "http://x:10031") "http://x:10031/"
        = [("http://x:10031", none)] :=
  ⟨(C5_register_idempotent [("http://x:10031", some (Json.str "meta"))]
      "http://x:10031/").1 (some (Json.str "meta")) rfl,
    (C5_register_idempotent [] "http://x:10031").2.2.2⟩

/-! ## Claim C6 -/

/-- In any list, the elements kept by a test and those kept by its negation
together count the whole list. -/
theorem length_filter_add_length_filter_not {α : Type} (l : List α) (p : α → Bool) :
    (l.filter p).length + (l.filter (fun a => !(p a))).length = l.length := by
  induction l with
  | nil => simp
  | cons a t ih =>
    rcases hpa : p a <;> simp [List.filter_cons, hpa] <;> omega

/-- Claim C6: `list_remote_agents` returns one metadata entry per registered
endpoint whose metadata is cached or freshly fetchable, and silently omits
every endpoint whose fetch fails; in particular, for a client with `N`
registered and unfetched endpoints of which `M` fail, exactly `N - M` entries
come back.  The function is total, so no exception is raised. -/
theorem C6_list_partial_results (fetch : String → ReqFetch) (c : Cache) :
    (list_remote_agents fetch c).1.length
        = (c.filter (fun p => p.2.isSome || (fetch p.1).isOk)).length
      ∧ (c.all (fun p => p.2.isNone) = true →
          (list_remote_agents fetch c).1.length
            + (c.filter (fun p => !(fetch p.1).isOk)).length = c.length) := by
  have hlen : (list_remote_agents fetch c).1.length
      = (c.filter (fun p => p.2.isSome || (fetch p.1).isOk)).length := by
    induction c with
    | nil => simp [list_remote_agents]
    | cons p rest ih =>
      obtain ⟨url, ci⟩ := p
      rcases ci with _ | info
      · rcases h : fetch url with j | e | e <;>
          simp [list_remote_agents, h, ReqFetch.isOk, List.filter_cons, ih]
      · simp [list_remote_agents, List.filter_cons, ih]
  refine ⟨hlen, fun hall => ?_⟩
  have hcong : c.filter (fun p => p.2.isSome || (fetch p.1).isOk)
      = c.filter (fun p => (fetch p.1).isOk) := by
    refine List.filter_congr ?_
    intro p hp
    simp only [List.all_eq_true] at hall
    have hnone : p.2 = none := by
      have := hall p hp
      simpa [Option.isNone_iff_eq_none] using this
    simp [hnone]
  rw [hlen, hcong]
  exact length_filter_add_length_filter_not c (fun p => (fetch p.1).isOk)

/-- Witness for C6: three registered, unfetched endpoints, one unreachable,
yield exactly two entries. -/
theorem C6_list_partial_results_witness :
    (list_remote_agents fetchOneDown
        [("http://x:10031", none), ("http://x:10032", none), ("http://x:10033", none)]).1.length
      + 1 = 3 := by
  have h := (C6_list_partial_results fetchOneDown
      [("http://x:10031", none), ("http://x:10032", none), ("http://x:10033", none)]).2
      (by decide)
  have hfail : ([("http://x:10031", (none : Option Json)),
      ("http://x:10032", none), ("http://x:10033", none)].filter
        (fun p => !(fetchOneDown p.1).isOk)).length = 1 := rfl
  have hlen : ([("http://x:10031", (none : Option Json)),
      ("http://x:10032", none), ("http://x:10033", none)] : Cache).length = 3 := rfl
  omega

/-! ## Claim C8 -/

/-- `add_remote_agent` never overwrites an existing binding. -/
theorem cacheGet_add_remote_agent_preserved (c : Cache) (u url : String) (j : Json)
    (h : cacheGet c url = some (some j)) :
    cacheGet (add_remote_agent c u) url = some (some j) := by
  unfold add_remote_agent
  rcases hn : cacheGet c (rstripSlash u) with _ | j'
  · by_cases he : rstripSlash u = url
    · rw [he, h] at hn
      cases hn
    · simp only [hn]
      exact (cacheGet_cacheSet_ne c (rstripSlash u) url none he).trans h
  · simpa [hn] using h

/-- `list_remote_agents` only fills unpopulated entries: a cached metadata
document survives the listing unchanged. -/
theorem cacheGet_list_preserved (fetch : String → ReqFetch) (c : Cache) (url : String)
    (j : Json) (h : cacheGet c url = some (some j)) :
    cacheGet (list_remote_agents fetch c).2 url = some (some j) := by
  induction c with
  | nil => simpa [list_remote_agents] using h
  | cons p rest ih =>
    obtain ⟨u', ci⟩ := p
    by_cases he : u' = url
    · subst he
      rcases ci with _ | info
      · simp [cacheGet] at h
      · simp [cacheGet] at h
        subst h
        simp [list_remote_agents, cacheGet]
    · have h' : cacheGet rest url = some (some j) := by
        simpa [cacheGet, he] using h
      rcases ci with _ | info
      · rcases hf : fetch u' with j' | e | e <;>
          simp [list_remote_agents, hf, cacheGet, he, ih h']
      · simp [list_remote_agents, cacheGet, he, ih h']

/-- `create_task` writes the cache only on a successful fetch for a URL whose
entry was absent or unpopulated; a populated entry is used, never replaced. -/
theorem cacheGet_create_task_preserved (env : NetEnv) (c : Cache) (u m url : String)
    (j : Json) (h : cacheGet c url = some (some j)) :
    cacheGet (create_task env c u m).2.1 url = some (some j) := by
  unfold create_task
  rcases hn : cacheGet c (rstripSlash u) with _ | ci
  · have hnu : rstripSlash u ≠ url := by
      intro he
      rw [he, h] at hn
      cases hn
    rcases hf : env.httpxFetch (rstripSlash u) with card | e | ⟨code, e⟩ | e
    · simp only [hn, hf]
      exact (cacheGet_cacheSet_ne c (rstripSlash u) url (some card) hnu).trans h
    · simpa [hn, hf] using h
    · simpa [hn, hf] using h
    · simpa [hn, hf] using h
  · rcases ci with _ | card
    · have hnu : rstripSlash u ≠ url := by
        intro he
        rw [he, h] at hn
        simp at hn
      rcases hf : env.httpxFetch (rstripSlash u) with card | e | ⟨code, e⟩ | e
      · simp only [hn, hf]
        exact (cacheGet_cacheSet_ne c (rstripSlash u) url (some card) hnu).trans h
      · simpa [hn, hf] using h
      · simpa [hn, hf] using h
      · simpa [hn, hf] using h
    · simpa [hn] using h

/-- Claim C8: metadata caching is at-most-once.  Over any sequence of
register / list / send-task operations, each against an arbitrary network, a
populated metadata entry is never refetched, replaced or invalidated. -/
theorem C8_metadata_at_most_once (ops : List Op) (c : Cache) (url : String) (j : Json)
    (h : cacheGet c url = some (some j)) :
    cacheGet (ops.foldl applyOp c) url = some (some j) := by
  induction ops generalizing c with
  | nil => simpa using h
  | cons op rest ih =>
    cases op with
    | register u => exact ih _ (cacheGet_add_remote_agent_preserved c u url j h)
    | listAgents env => exact ih _ (cacheGet_list_preserved env.reqFetch c url j h)
    | sendTask env u m => exact ih _ (cacheGet_create_task_preserved env c u m url j h)

/-- Witness for C8: a populated entry survives a register of the same URL, a
listing against a dead network, and a send-task to the same URL. -/
theorem C8_metadata_at_most_once_witness :
    cacheGet ([Op.register "http://x:10031/", Op.listAgents envConnRefused,
        Op.sendTask envConnRefused "http://x:10031" "hi"].foldl applyOp
        [("http://x:10031", some (Json.str "card"))]) "http://x:10031"
      = some (some (Json.str "card")) :=
  C8_metadata_at_most_once _ _ _ _ rfl

/-! ## Claim C9 -/

/-- Once the agent card is valid, `create_task` always reaches
`client.send_message`, whatever the send outcome or envelope shape. -/
theorem create_task_send_events (env : NetEnv) (n : String) (card : Json) (m : String)
    (hcard : env.mkAgentCard card = .ok ()) :
    (create_task_send env n card m).2 = [.sendMessage card m] := by
  unfold create_task_send
  rw [hcard]
  rcases hs : env.send card m with resp | e
  · rcases hx : extract_response_text resp with v | _ | _
    · rcases v <;> simp [hs, hx]
    · simp [hs, hx]
    · simp [hs, hx]
  · simp [hs]

/-- Claim C9: sending to a URL that is not yet tracked first fetches the
metadata document, stores it in the cache under the normalized URL (so the
URL is tracked afterwards), and only then sends the task request: the event
trace is exactly fetch-then-send. -/
theorem C9_lazy_registration (env : NetEnv) (cache : Cache) (agent_url message : String)
    (card : Json)
    (hreg : cacheGet cache (rstripSlash agent_url) = none)
    (hfetch : env.httpxFetch (rstripSlash agent_url) = .ok card)
    (hcard : env.mkAgentCard card = .ok ()) :
    cacheGet (create_task env cache agent_url message).2.1 (rstripSlash agent_url)
        = some (some card)
      ∧ (create_task env cache agent_url message).2.2
        = [.fetchCard (rstripSlash agent_url), .sendMessage card message] := by
  unfold create_task
  simp only [hreg, hfetch]
  refine ⟨cacheGet_cacheSet_self cache (rstripSlash agent_url) (some card), ?_⟩
  rw [create_task_send_events env (rstripSlash agent_url) card message hcard]

/-- Witness for C9: a send to the un-tracked URL `"http://x:10031/"` caches
the fetched card under the stripped URL and sends afterwards. -/
theorem C9_lazy_registration_witness :
    cacheGet (create_task envTextReply [] "http://x:10031/" "hi").2.1 "http://x:10031"
        = some (some cardJson)
      ∧ (create_task envTextReply [] "http://x:10031/" "hi").2.2
        = [.fetchCard "http://x:10031", .sendMessage cardJson "hi"] :=
  C9_lazy_registration envTextReply [] "http://x:10031/" "hi" cardJson rfl rfl rfl

/-! ## Claim C7 -/

/-- The inner loop on a list of well-formed parts finds exactly the first
present text field. -/
theorem scanParts_mkPart (parts : List (Option String)) :
    scanParts (parts.map mkPart)
      = match (parts.filterMap id).head? with
        | some t => .found (Json.str t)
        | none => .noText := by
  induction parts with
  | nil => rfl
  | cons p rest ih =>
    rcases p with _ | t
    · simpa [mkPart, scanParts, keyProbe, assocGet] using ih
    · simp [mkPart, scanParts, keyProbe, assocGet]

/-- The outer loop on a list of well-formed artifacts finds exactly the first
text field in scan order. -/
theorem scanArtifacts_mkArtifact (arts : List (Option (List (Option String)))) :
    scanArtifacts (arts.map mkArtifact)
      = match specFirstText arts with
        | some t => .found (Json.str t)
        | none => .noText := by
  induction arts with
  | nil => rfl
  | cons a rest ih =>
    rcases a with _ | parts
    · simpa [mkArtifact, scanArtifacts, keyProbe, assocGet, specFirstText] using ih
    · have hsp := scanParts_mkPart parts
      rcases hf : parts.filterMap id with _ | ⟨t, ts⟩
      · rw [hf] at hsp
        simp only [List.head?_nil] at hsp
        simp [scanArtifacts, mkArtifact, keyProbe, assocGet, hsp, specFirstText, hf, ih]
      · rw [hf] at hsp
        simp only [List.head?_cons] at hsp
        simp [scanArtifacts, mkArtifact, keyProbe, assocGet, hsp, specFirstText, hf]

/-- The envelope walk agrees with the spec-side scan on every well-formed
envelope. -/
theorem extract_mkEnvelope (arts : List (Option (List (Option String)))) :
    extract_response_text (mkEnvelope arts)
      = match specFirstText arts with
        | some t => .found (Json.str t)
        | none => .noText := by
  have h := scanArtifacts_mkArtifact arts
  simpa [extract_response_text, mkEnvelope, keyProbe, assocGet] using h

/-- Claim C7: on a well-formed envelope, the text returned to the caller is
the first `text` field found scanning `result.artifacts` in order and each
artifact's parts in order; when no text field exists anywhere, the whole
envelope is returned serialized as pretty-printed JSON. -/
theorem C7_first_text_or_dump (env : NetEnv) (n : String) (card : Json) (m : String)
    (arts : List (Option (List (Option String))))
    (hcard : env.mkAgentCard card = .ok ())
    (hsend : env.send card m = .ok (mkEnvelope arts)) :
    (create_task_send env n card m).1
      = .ok (match specFirstText arts with
             | some t => t
             | none => json_dumps (mkEnvelope arts)) := by
  unfold create_task_send
  rw [hcard]
  simp only [hsend]
  rw [extract_mkEnvelope arts]
  rcases h : specFirstText arts with _ | t <;> simp [h]

/-- Witness for C7: an envelope whose second artifact's second part holds
`"hi"` yields `"hi"`; an envelope with no artifacts falls back to its
pretty-printed serialization. -/
theorem C7_first_text_or_dump_witness :
    (create_task_send envTextReply "http://x:10031" cardJson "m").1 = .ok "hi"
      ∧ (create_task_send envEmptyReply "http://x:10031" cardJson "m").1
        = .ok (json_dumps (mkEnvelope [])) :=
  ⟨C7_first_text_or_dump envTextReply "http://x:10031" cardJson "m"
      [none, some [none, some "hi"]] rfl rfl,
    C7_first_text_or_dump envEmptyReply "http://x:10031" cardJson "m" [] rfl rfl⟩

/-! ## Claim C2 -/

set_option maxRecDepth 40000 in
/-- Claim C2: when the research, processing and report endpoints answer the
literal strings `"R"`, `"P"` and `"F"`, the pipeline returns exactly the
fixed summary wrapper around `"F"`: it contains `"F"` and the wrapper text,
and no truncation artifact (no `"..."`) appears anywhere in it. -/
theorem C2_full_pipeline_RPF :
    (orchestrate_workflow envRPF (pys "AI trends in 2024")).1
        = pys "# Workflow Orchestration Complete\n\n## Summary\nSuccessfully coordinated between Research Analyst, Data Processor, and Report Writer agents using A2A protocol.\n\n## Final Report\nF\n\n---\n*This report was generated through coordinated work between specialized AI agents using the A2A protocol.*"
      ∧ occursIn (pys "F") (orchestrate_workflow envRPF (pys "AI trends in 2024")).1 = true
      ∧ occursIn (pys "# Workflow Orchestration Complete")
          (orchestrate_workflow envRPF (pys "AI trends in 2024")).1 = true
      ∧ occursIn (pys "...") (orchestrate_workflow envRPF (pys "AI trends in 2024")).1
          = false := by
  refine ⟨?_, ?_, ?_, ?_⟩ <;> decide

/-! ## Claim C3 -/

/-- Claim C3: when the research stage succeeds but the processing-stage
result text contains the error marker, the pipeline returns the
data-processing failure message and the report endpoint is never called:
the call trace stops after research and processing. -/
theorem C3_processing_failure_short_circuits (env : OrchEnv) (user_request r d : PyStr)
    (hr : extract_text_from_response (send_message_to_agent env research_analyst_url
        (research_message user_request)) = r)
    (hrok : occursIn errorMarker r = false)
    (hd : extract_text_from_response (send_message_to_agent env data_processor_url
        (data_message r)) = d)
    (hdfail : occursIn errorMarker d = true) :
    (orchestrate_workflow env user_request).1 = pys "❌ Data processing failed: " ++ d
      ∧ (orchestrate_workflow env user_request).2
        = [(research_analyst_url, research_message user_request),
           (data_processor_url, data_message r)]
      ∧ (orchestrate_workflow env user_request).2.countP
          (fun p => p.1 == report_writer_url) = 0 := by
  have hmain : orchestrate_workflow env user_request
      = (pys "❌ Data processing failed: " ++ d,
         [(research_analyst_url, research_message user_request),
          (data_processor_url, data_message r)]) := by
    simp [orchestrate_workflow, hr, hrok, hd, hdfail]
  refine ⟨by rw [hmain], by rw [hmain], ?_⟩
  rw [hmain]
  simp [List.countP_cons, research_analyst_url, data_processor_url, report_writer_url]

/-- Witness for C3: the pipeline against `envProcFail` fails at the
processing stage and the trace holds no call to the report endpoint. -/
theorem C3_processing_failure_witness :
    (orchestrate_workflow envProcFail (pys "quantum computing")).1
        = pys "❌ Data processing failed: Error: processor crashed"
      ∧ (orchestrate_workflow envProcFail (pys "quantum computing")).2.countP
          (fun p => p.1 == report_writer_url) = 0 := by
  have h := C3_processing_failure_short_circuits envProcFail (pys "quantum computing")
      (pys "ok") (pys "Error: processor crashed") rfl (by decide) rfl (by decide)
  exact ⟨h.1.trans (by decide), h.2.2⟩

/-! ## Claims C4 and C10 -/

/-- On a run whose research and processing stages succeed, the trace consists
of exactly the three stage messages, whatever the report stage answers. -/
theorem orchestrate_trace_of_success (env : OrchEnv) (user_request r d : PyStr)
    (hr : extract_text_from_response (send_message_to_agent env research_analyst_url
        (research_message user_request)) = r)
    (hrok : occursIn errorMarker r = false)
    (hd : extract_text_from_response (send_message_to_agent env data_processor_url
        (data_message r)) = d)
    (hdok : occursIn errorMarker d = false) :
    (orchestrate_workflow env user_request).2
      = [(research_analyst_url, research_message user_request),
         (data_processor_url, data_message r),
         (report_writer_url, report_message r d)] := by
  simp [orchestrate_workflow, hr, hrok, hd, hdok, apply_ite Prod.snd]

/-- Claim C4: whenever the first two stages succeed, the processing-stage
request embeds exactly the first 2000 characters of the research text
(`r.take 2000`, which for a 2001-character output has length 2000), and the
report-stage request embeds at most the first 1500 characters of the research
text and at most the first 1500 characters of the processed text. -/
theorem C4_truncation_boundaries (env : OrchEnv) (user_request r d : PyStr)
    (hr : extract_text_from_response (send_message_to_agent env research_analyst_url
        (research_message user_request)) = r)
    (hrok : occursIn errorMarker r = false)
    (hd : extract_text_from_response (send_message_to_agent env data_processor_url
        (data_message r)) = d)
    (hdok : occursIn errorMarker d = false) :
    (orchestrate_workflow env user_request).2.map Prod.snd
        = [research_message user_request,
           pys "Analyze and process this research data: " ++ r.take 2000 ++ pys "...",
           pys "Create a comprehensive report based on the following information:\n\nRESEARCH FINDINGS:\n"
             ++ r.take 1500 ++ pys "...\n\nDATA ANALYSIS:\n" ++ d.take 1500
             ++ pys "...\n\nPlease create a well-structured report that combines both the research findings and data analysis."]
      ∧ (r.length = 2001 → (r.take 2000).length = 2000)
      ∧ (r.take 1500).length ≤ 1500
      ∧ (d.take 1500).length ≤ 1500 := by
  refine ⟨?_, fun h2001 => ?_, ?_, ?_⟩
  · rw [orchestrate_trace_of_success env user_request r d hr hrok hd hdok]
    simp [research_message, data_message, report_message]
  · simp [List.length_take, h2001]
  · simp [List.length_take]
  · simp [List.length_take]

set_option maxRecDepth 100000 in
/-- Witness for C4: a 2001-character research output is forwarded cut to
exactly its first 2000 characters. -/
theorem C4_truncation_boundaries_witness :
    (orchestrate_workflow envLongResearch (pys "T")).2.map Prod.snd
        = [research_message (pys "T"),
           pys "Analyze and process this research data: "
             ++ (List.replicate 2001 'a').take 2000 ++ pys "...",
           pys "Create a comprehensive report based on the following information:\n\nRESEARCH FINDINGS:\n"
             ++ (List.replicate 2001 'a').take 1500 ++ pys "...\n\nDATA ANALYSIS:\n"
             ++ (pys "ok").take 1500
             ++ pys "...\n\nPlease create a well-structured report that combines both the research findings and data analysis."]
      ∧ ((List.replicate 2001 'a').take 2000).length = 2000 := by
  have h := C4_truncation_boundaries envLongResearch (pys "T") (List.replicate 2001 'a')
      (pys "ok") rfl (by decide) rfl (by decide)
  exact ⟨h.1, h.2.1 (by simp)⟩

/-- Claim C10: the literal `"..."` is appended to every forwarded prefix
unconditionally: the processing-stage request always ends the embedded
research prefix with `"..."` — even when the research output is under the
2000-character cutoff, in which case the whole output is embedded followed by
`"..."` — and the report-stage request appends `"..."` to each of its two
1500-character prefixes. -/
theorem C10_ellipsis_unconditional (env : OrchEnv) (user_request r d : PyStr)
    (hr : extract_text_from_response (send_message_to_agent env research_analyst_url
        (research_message user_request)) = r)
    (hrok : occursIn errorMarker r = false)
    (hd : extract_text_from_response (send_message_to_agent env data_processor_url
        (data_message r)) = d)
    (hdok : occursIn errorMarker d = false) :
    ((orchestrate_workflow env user_request).2.map Prod.snd)[1]?
        = some (pys "Analyze and process this research data: " ++ r.take 2000 ++ pys "...")
      ∧ (r.length ≤ 2000 →
          ((orchestrate_workflow env user_request).2.map Prod.snd)[1]?
            = some (pys "Analyze and process this research data: " ++ r ++ pys "..."))
      ∧ ((orchestrate_workflow env user_request).2.map Prod.snd)[2]?
        = some (pys "Create a comprehensive report based on the following information:\n\nRESEARCH FINDINGS:\n"
             ++ r.take 1500 ++ pys "...\n\nDATA ANALYSIS:\n" ++ d.take 1500
             ++ pys "...\n\nPlease create a well-structured report that combines both the research findings and data analysis.") := by
  have ht := orchestrate_trace_of_success env user_request r d hr hrok hd hdok
  refine ⟨?_, fun hshort => ?_, ?_⟩
  · rw [ht]
    simp [data_message]
  · rw [ht]
    simp [data_message, List.take_of_length_le hshort]
  · rw [ht]
    simp [report_message]

/-- Witness for C10: a 13-character research output is embedded whole and
still followed by the literal `"..."`. -/
theorem C10_ellipsis_unconditional_witness :
    ((orchestrate_workflow envShortResearch (pys "T")).2.map Prod.snd)[1]?
      = some (pys "Analyze and process this research data: short finding...") := by
  have h := C10_ellipsis_unconditional envShortResearch (pys "T") (pys "short finding")
      (pys "ok") rfl (by decide) rfl (by decide)
  exact (h.2.1 (by decide)).trans (by decide)

end A2AWorkflow
